import Mathlib

/-!
Shallow embedding of `backend/main.py` of the Math Solver API.

The program has two HTTP handlers, `solve_problem` (`/api/solve`) and
`explain_solution` (`/api/explain`).  Each builds a prompt string,
optionally decodes a base64 image, calls the external generation service
once, and maps the result, or the exception raised, to an HTTP response.

Modelling choices:
* Python strings are lists of characters (`PyStr`).
* The external libraries, `base64.b64decode`, `PIL.Image.open` and
  `model.generate_content`, are oracle functions gathered in `Oracles`
  and passed to the handlers; a failing oracle call models a raised
  exception, carrying the message `str(e)`.
* Each handler returns, next to the HTTP response, the list of calls it
  made to the generation service, so that theorems can speak about what
  was sent.
* A raised `HTTPException` is an ordinary exception value: in the source
  both handlers wrap their whole body in `try ... except Exception`, so
  an `HTTPException` raised inside the body is caught there like any
  other exception, and its `str` is the Starlette rendering
  `"<status_code>: <detail>"`.
-/

/-- Python strings, modelled as lists of characters. -/
abbrev PyStr := List Char

/-- The single-quote character (code point 39). -/
def squote : Char := Char.ofNat 39

/-- Python `s.lower()`, restricted to the character-wise folding the
handlers rely on. -/
def pyLower (s : PyStr) : PyStr := s.map Char.toLower

/-- Python `s.split(sep)` for a one-character separator: splits at every
occurrence of the separator, keeping empty segments. -/
def pySplit (sep : Char) : PyStr → List PyStr
  | [] => [[]]
  | c :: cs =>
      if c = sep then [] :: pySplit sep cs
      else
        match pySplit sep cs with
        | [] => [[c]]
        | h :: t => (c :: h) :: t

/-- Python truthiness of an `Optional[str]` value: `None` and the empty
string are falsy, any non-empty string is truthy. -/
def optStrTruthy : Option PyStr → Bool
  | none => false
  | some s => !s.isEmpty

/-- Request body of `/api/solve` (lines 38-41): problem text, target
language, and an optional base64 image payload. -/
structure SolveRequest where
  problem : PyStr
  language : PyStr
  image_data : Option PyStr
  deriving DecidableEq

/-- Request body of `/api/explain` (lines 43-46). -/
structure ExplainRequest where
  problem : PyStr
  solution : PyStr
  language : PyStr
  deriving DecidableEq

/-- A decoded raster image (the result of `PIL.Image.open`), identified by
the byte string it was parsed from. -/
structure PILImage where
  data : List Nat
  deriving DecidableEq

/-- One element of the `contents` list passed to `generate_content`:
either an image or a piece of text. -/
inductive ContentPart where
  | image (img : PILImage)
  | text (s : PyStr)
  deriving DecidableEq

/-- `genai.types.GenerationConfig`: the sampling parameters the handlers
set on every call. -/
structure GenerationConfig where
  temperature : ℚ
  max_output_tokens : ℕ
  deriving DecidableEq

/-- The generative model handle. -/
structure Model where
  model_name : PyStr
  deriving DecidableEq

/-- `get_model` (lines 49-51) returns a handle to the fixed model
`gemini-2.5-flash`. -/
def get_model : Model := ⟨("gemini-2.5-flash").toList⟩

/-- One recorded invocation of the external generation service. -/
structure GenCall where
  model : Model
  contents : List ContentPart
  config : GenerationConfig
  deriving DecidableEq

/-- A Python exception as the handler boundary observes it: either a
FastAPI/Starlette `HTTPException` or any other exception carried by its
message. -/
inductive PyExc where
  | httpExc (status : ℕ) (detail : PyStr)
  | genericExc (msg : PyStr)
  deriving DecidableEq

/-- Python `str(e)`: Starlette renders an `HTTPException` as
`f"\x7bstatus_code\x7d: \x7bdetail\x7d"`; a generic exception is its message. -/
def PyExc.str : PyExc → PyStr
  | .httpExc status detail => (toString status).toList ++ (": ").toList ++ detail
  | .genericExc msg => msg

/-- The external collaborators, as oracle functions: `base64.b64decode`,
`PIL.Image.open`, and `model.generate_content` (the latter returning
`response.text` on success).  An `Except.error` models a raised exception
and carries `str(e)`. -/
structure Oracles where
  b64decode : PyStr → Except PyStr (List Nat)
  image_open : List Nat → Except PyStr PILImage
  generate_content : GenCall → Except PyStr PyStr

/-- The JSON-visible outcome of one request: the HTTP status code plus the
three body fields a response may carry.  A success body sets exactly one of
`solution`/`explanation`; an error body (FastAPI rendering of a raised
`HTTPException`) sets only `detail`. -/
structure HttpResponse where
  status : ℕ
  solution : Option PyStr
  explanation : Option PyStr
  detail : Option PyStr
  deriving DecidableEq

/-- The part of the base solve prompt before the interpolated language. -/
def solveBaseHead : PyStr :=
  ("TASK: You are a world-class STEM (Math, Physics, Chemistry) solver. \n        \n        REQUIREMENTS:\n        1. Solve the problem COMPLETELY using the shortest and easiest method\n        2. Provide step-by-step solution with ALL intermediate calculations\n        3. ALWAYS show the final numerical answer clearly at the end\n        4. Use simple math symbols (*, /, +, ^) only - NO LaTeX/MathJax\n        5. Respond in ").toList

/-- The part of the base solve prompt after the interpolated language. -/
def solveBaseTail : PyStr :=
  (" language\n        \n        CRITICAL: You MUST complete ALL calculations and show the final answer. Do not stop mid-calculation.").toList

/-- Lines 58-67: the base solve prompt, with the request language
interpolated before the word `language`. -/
def solve_prompt_base (language : PyStr) : PyStr :=
  solveBaseHead ++ language ++ solveBaseTail

/-- Lines 75-78: if a comma is present the payload is treated as a
data-URI and element 1 of `split(",")` is taken, otherwise the payload is
used as is. -/
def extract_base64_data (image_data : PyStr) : PyStr :=
  if ',' ∈ image_data then (pySplit ',' image_data).getD 1 []
  else image_data

/-- Line 88: the text-only solve prompt, embedding the literal problem
between single quotes. -/
def solve_text_prompt (problem language : PyStr) : PyStr :=
  ("Solve the following problem: ").toList ++ [squote] ++ problem ++ [squote]
    ++ (". ").toList ++ solve_prompt_base language

/-- Line 84: the instruction prefixed to the solve prompt when an image is
attached. -/
def image_instruction : PyStr :=
  ("Solve the math problem shown in the attached image. ").toList

/-- Lines 69-88: build the `contents` list for `generate_content`.  On the
image path a failure of base64 decoding or of image parsing is caught and
re-raised (line 86) as `HTTPException(400, "Invalid image data: " + str(e))`. -/
def solve_contents (o : Oracles) (request : SolveRequest) : Except PyExc (List ContentPart) :=
  if optStrTruthy request.image_data then
    let base64_data := extract_base64_data (request.image_data.getD [])
    match o.b64decode base64_data with
    | .error e => .error (.httpExc 400 (("Invalid image data: ").toList ++ e))
    | .ok image_bytes =>
        match o.image_open image_bytes with
        | .error e => .error (.httpExc 400 (("Invalid image data: ").toList ++ e))
        | .ok img =>
            .ok [ContentPart.image img,
                 ContentPart.text (image_instruction ++ solve_prompt_base request.language)]
  else
    .ok [ContentPart.text (solve_text_prompt request.problem request.language)]

/-- Lines 92-95: the generation config of the solve handler. -/
def solveConfig : GenerationConfig := ⟨0, 2500⟩

/-- Lines 123-126: the generation config of the explain handler. -/
def explainConfig : GenerationConfig := ⟨0.2, 800⟩

/-- Line 105: the retry guidance prepended when the error message mentions
quota. -/
def quotaGuidance : PyStr :=
  ("API Quota exceeded. Please wait a few seconds and try again. ").toList

/-- Lines 100-106, repeated verbatim as lines 131-136: the boundary
`except Exception as e` block shared by both handlers.  It takes
`detail = str(e)`, prepends the retry guidance when `"quota"` occurs in
`detail.lower()`, and raises `HTTPException(500, detail)`, which FastAPI
renders as a 500 response whose body carries only `detail`. -/
def handle_exception (e : PyExc) : HttpResponse :=
  let detail := PyExc.str e
  let detail :=
    if ("quota").toList <:+: pyLower detail then quotaGuidance ++ detail
    else detail
  ⟨500, none, none, some detail⟩

/-- Lines 53-106: the `/api/solve` handler.  The second component is the
trace of calls made to the generation service (empty when building the
contents already raised). -/
def solve_problem (o : Oracles) (request : SolveRequest) : HttpResponse × List GenCall :=
  match solve_contents o request with
  | .error e => (handle_exception e, [])
  | .ok contents =>
      let call : GenCall := ⟨get_model, contents, solveConfig⟩
      ((match o.generate_content call with
        | .ok text => ⟨200, some text, none, none⟩
        | .error e => handle_exception (.genericExc e)),
       [call])

/-- The explain prompt up to the interpolated problem. -/
def explainHead : PyStr :=
  ("TASK: You are an expert STEM tutor. Your goal is to simplify the provided detailed solution. \n        The explanation must be easy to understand for a middle school student, use simple math symbols (*, /, +) only, and be highly efficient.\n        \n        The original problem was: ").toList

/-- The explain prompt between the problem and the solution. -/
def explainMid1 : PyStr :=
  ("\n        The detailed solution to simplify is: ").toList

/-- The explain prompt between the solution and the language. -/
def explainMid2 : PyStr :=
  ("\n        \n        Provide the simplified explanation in ").toList

/-- The explain prompt after the interpolated language. -/
def explainTail : PyStr := (" language").toList

/-- Lines 113-119: the explain prompt, embedding problem, solution and
language. -/
def explain_prompt (request : ExplainRequest) : PyStr :=
  explainHead ++ request.problem ++ explainMid1 ++ request.solution
    ++ explainMid2 ++ request.language ++ explainTail

/-- Lines 108-136: the `/api/explain` handler, with its generation-call
trace. -/
def explain_solution (o : Oracles) (request : ExplainRequest) : HttpResponse × List GenCall :=
  let call : GenCall := ⟨get_model, [ContentPart.text (explain_prompt request)], explainConfig⟩
  ((match o.generate_content call with
    | .ok text => ⟨200, none, some text, none⟩
    | .error e => handle_exception (.genericExc e)),
   [call])

/-- A concrete oracle assignment for evaluating the handlers on closed
inputs: decoding and image parsing succeed, generation returns a fixed
text. -/
def sampleOracles : Oracles where
  b64decode := fun s => .ok (s.map Char.toNat)
  image_open := fun bs => .ok ⟨bs⟩
  generate_content := fun _ => .ok (("The answer is 4.").toList)

/-- Oracles whose base64 decoding fails with the message CPython produces
for the payload `not-base64!!`. -/
def failingDecodeOracles : Oracles where
  b64decode := fun _ =>
    .error (("Invalid base64-encoded string: number of data characters (9) cannot be 1 more than a multiple of 4").toList)
  image_open := fun bs => .ok ⟨bs⟩
  generate_content := fun _ => .ok (("The answer is 4.").toList)

/-- The request of the failing image example: `problem="2+2"`,
`language="English"`, `image_data="not-base64!!"`. -/
def badImageRequest : SolveRequest :=
  ⟨("2+2").toList, ("English").toList, some (("not-base64!!").toList)⟩

/-- A concrete quota-mentioning exception. -/
def quotaExc : PyExc :=
  .genericExc (("429 Resource has been exhausted: check quota.").toList)

/-- A concrete solve request without image data. -/
def sreq0 : SolveRequest := ⟨("2+2").toList, ("English").toList, none⟩

/-- The concrete explain request of the specification example. -/
def ereq0 : ExplainRequest :=
  ⟨("2+2").toList, ("2+2=4").toList, ("English").toList⟩

/-- The generation call the explain handler makes for `ereq0`. -/
def explainCall0 : GenCall :=
  ⟨get_model, [ContentPart.text (explain_prompt ereq0)], explainConfig⟩

/-- A concrete data-URI header and base64 payload. -/
def dataUriHeader : PyStr := ("data:image/png;base64").toList

/-- A concrete base64 payload (no comma occurs in the base64 alphabet). -/
def b64Payload : PyStr := ("iVBORw0KGgoAAAANSUhEUg==").toList

/-- `pySplit` on a string avoiding the separator returns the whole string
as the single segment. -/
theorem pySplit_of_not_mem (sep : Char) : ∀ s : PyStr, sep ∉ s → pySplit sep s = [s]
  | [], _ => rfl
  | c :: cs, h => by
      have hc : ¬ c = sep := fun hcc => h (hcc ▸ List.mem_cons_self c cs)
      have hcs : sep ∉ cs := fun hm => h (List.mem_cons_of_mem c hm)
      simp [pySplit, hc, pySplit_of_not_mem sep cs hcs]

/-- Splitting `a ++ sep :: b` where `a` avoids the separator yields `a`
followed by the splitting of `b`. -/
theorem pySplit_append (sep : Char) : ∀ (a b : PyStr), sep ∉ a →
    pySplit sep (a ++ sep :: b) = a :: pySplit sep b
  | [], b, _ => by simp [pySplit]
  | c :: cs, b, h => by
      have hc : ¬ c = sep := fun hcc => h (hcc ▸ List.mem_cons_self c cs)
      have hcs : sep ∉ cs := fun hm => h (List.mem_cons_of_mem c hm)
      simp [pySplit, hc, pySplit_append sep cs b hcs]

/-- On a data-URI payload whose header and base64 part avoid commas, the
extraction keeps exactly the part after the first comma. -/
theorem extract_base64_data_prefixed (pre pay : PyStr) (h1 : ',' ∉ pre) (h2 : ',' ∉ pay) :
    extract_base64_data (pre ++ ',' :: pay) = pay := by
  have hmem : ',' ∈ pre ++ ',' :: pay := List.mem_append_right pre (List.mem_cons_self ',' pay)
  simp only [extract_base64_data, if_pos hmem, pySplit_append ',' pre pay h1,
    pySplit_of_not_mem ',' pay h2]
  rfl

/-- On a bare payload without a comma, the extraction is the identity. -/
theorem extract_base64_data_bare (pay : PyStr) (h : ',' ∉ pay) :
    extract_base64_data pay = pay := by
  simp only [extract_base64_data, if_neg h]

/-- The boundary handler always produces a 500 response carrying only a
detail field. -/
theorem handle_exception_shape (e : PyExc) :
    ∃ d, handle_exception e = ⟨500, none, none, some d⟩ :=
  ⟨_, rfl⟩

/-- Unfolded form of the boundary handler. -/
theorem handle_exception_def (e : PyExc) :
    handle_exception e =
      ⟨500, none, none,
        some (if ("quota").toList <:+: pyLower (PyExc.str e)
              then quotaGuidance ++ PyExc.str e else PyExc.str e)⟩ := rfl

/-- Claim C9: a `SolveRequest` whose `image_data` is the empty string is
falsy for the line-71 test, so the handler behaves exactly as for an
absent `image_data`: no decoding is attempted and the contents are the
text-only prompt embedding the literal problem. -/
theorem c9_empty_image_data_text_path (o : Oracles) (p l : PyStr) :
    solve_problem o ⟨p, l, some []⟩ = solve_problem o ⟨p, l, none⟩ ∧
    solve_contents o ⟨p, l, some []⟩ =
      .ok [ContentPart.text (solve_text_prompt p l)] :=
  ⟨rfl, rfl⟩

/-- Claim C4: without image data the solve handler sends exactly one
generation call whose single text content is the text-only solve prompt,
and that prompt contains the literal problem text and the literal
language string. -/
theorem c4_text_prompt_contains_problem_and_language (o : Oracles) (p l : PyStr) :
    (solve_problem o ⟨p, l, none⟩).2 =
      [⟨get_model, [ContentPart.text (solve_text_prompt p l)], solveConfig⟩] ∧
    p <:+: solve_text_prompt p l ∧
    l <:+: solve_text_prompt p l := by
  refine ⟨rfl, ?_, ?_⟩
  · refine ⟨("Solve the following problem: ").toList ++ [squote],
      [squote] ++ (". ").toList ++ solve_prompt_base l, ?_⟩
    simp [solve_text_prompt]
  · refine ⟨("Solve the following problem: ").toList ++ [squote] ++ p ++ [squote]
      ++ (". ").toList ++ solveBaseHead, solveBaseTail, ?_⟩
    simp [solve_text_prompt, solve_prompt_base]

/-- Claim C10: an empty problem with no image is not rejected: the handler
still sends exactly one generation call, and its prompt begins with the
text `Solve the following problem: ` followed by two single quotes and a
period, the interpolation of the empty problem literal. -/
theorem c10_empty_problem_sent (o : Oracles) (l : PyStr) :
    (solve_problem o ⟨[], l, none⟩).2 =
      [⟨get_model, [ContentPart.text (solve_text_prompt [] l)], solveConfig⟩] ∧
    (("Solve the following problem: ").toList ++ [squote] ++ [squote] ++ (". ").toList)
      <+: solve_text_prompt [] l := by
  refine ⟨rfl, solve_prompt_base l, ?_⟩
  simp [solve_text_prompt]

/-- Claim C5: the explain handler sends exactly the explain prompt, which
contains the problem, the solution and the language verbatim; at the
concrete request of the specification example both literals occur. -/
theorem c5_explain_prompt_verbatim (o : Oracles) (r : ExplainRequest) :
    (explain_solution o r).2 =
      [⟨get_model, [ContentPart.text (explain_prompt r)], explainConfig⟩] ∧
    r.problem <:+: explain_prompt r ∧
    r.solution <:+: explain_prompt r ∧
    r.language <:+: explain_prompt r ∧
    ("2+2").toList <:+: explain_prompt ereq0 ∧
    ("2+2=4").toList <:+: explain_prompt ereq0 := by
  refine ⟨rfl,
    ⟨explainHead, explainMid1 ++ r.solution ++ explainMid2 ++ r.language ++ explainTail, ?_⟩,
    ⟨explainHead ++ r.problem ++ explainMid1, explainMid2 ++ r.language ++ explainTail, ?_⟩,
    ⟨explainHead ++ r.problem ++ explainMid1 ++ r.solution ++ explainMid2, explainTail, ?_⟩,
    ⟨explainHead, explainMid1 ++ ereq0.solution ++ explainMid2 ++ ereq0.language ++ explainTail, ?_⟩,
    ⟨explainHead ++ ereq0.problem ++ explainMid1, explainMid2 ++ ereq0.language ++ explainTail, ?_⟩⟩
  · simp [explain_prompt]
  · simp [explain_prompt]
  · simp [explain_prompt]
  · simp [explain_prompt, ereq0]
  · simp [explain_prompt, ereq0]

/-- Claim C2: at the handler boundary, a caught error whose message
contains quota case-insensitively yields a 500 whose detail is the retry
guidance followed by the original message, so the detail starts with the
guidance and still contains the message; any other caught error yields a
500 whose detail is the original message unchanged. -/
theorem c2_quota_guidance (e : PyExc) :
    (("quota").toList <:+: pyLower (PyExc.str e) →
      (handle_exception e).status = 500 ∧
      (handle_exception e).detail = some (quotaGuidance ++ PyExc.str e) ∧
      quotaGuidance <+: quotaGuidance ++ PyExc.str e ∧
      PyExc.str e <:+: quotaGuidance ++ PyExc.str e) ∧
    (¬ ("quota").toList <:+: pyLower (PyExc.str e) →
      (handle_exception e).status = 500 ∧
      (handle_exception e).detail = some (PyExc.str e)) := by
  constructor
  · intro h
    rw [handle_exception_def, if_pos h]
    exact ⟨rfl, rfl, List.prefix_append _ _, ⟨quotaGuidance, [], by simp⟩⟩
  · intro h
    rw [handle_exception_def, if_neg h]
    exact ⟨rfl, rfl⟩

/-- Witness for C2 at the concrete quota-mentioning exception. -/
theorem c2_quota_guidance_witness :
    (handle_exception quotaExc).status = 500 ∧
    (handle_exception quotaExc).detail = some (quotaGuidance ++ PyExc.str quotaExc) ∧
    quotaGuidance <+: quotaGuidance ++ PyExc.str quotaExc ∧
    PyExc.str quotaExc <:+: quotaGuidance ++ PyExc.str quotaExc :=
  (c2_quota_guidance quotaExc).1 (by decide)

/-- Claim C3: with a comma-free data-URI header and a comma-free base64
payload, the extraction strips exactly the header and the first comma, so
any decoder yields the same bytes on the prefixed and on the bare payload. -/
theorem c3_data_uri_strip (o : Oracles) (pre pay : PyStr)
    (h1 : ',' ∉ pre) (h2 : ',' ∉ pay) :
    extract_base64_data (pre ++ ',' :: pay) = pay ∧
    extract_base64_data pay = pay ∧
    o.b64decode (extract_base64_data (pre ++ ',' :: pay)) =
      o.b64decode (extract_base64_data pay) := by
  have ha := extract_base64_data_prefixed pre pay h1 h2
  have hb := extract_base64_data_bare pay h2
  exact ⟨ha, hb, by rw [ha, hb]⟩

/-- Witness for C3 at a concrete data-URI header and base64 payload. -/
theorem c3_data_uri_strip_witness :
    extract_base64_data (dataUriHeader ++ ',' :: b64Payload) = b64Payload ∧
    extract_base64_data b64Payload = b64Payload ∧
    sampleOracles.b64decode (extract_base64_data (dataUriHeader ++ ',' :: b64Payload)) =
      sampleOracles.b64decode (extract_base64_data b64Payload) :=
  c3_data_uri_strip sampleOracles dataUriHeader b64Payload (by decide) (by decide)

/-- Claim C6: when an image payload is supplied and both decoding steps
succeed, the single generation call carries the decoded image followed by
a text prompt that starts with the attached-image instruction, and the
handler outcome is independent of the textual problem field. -/
theorem c6_image_prompt (o : Oracles) (p l s : PyStr) (bytes : List Nat) (img : PILImage)
    (hs : s ≠ [])
    (hdec : o.b64decode (extract_base64_data s) = .ok bytes)
    (hopen : o.image_open bytes = .ok img) :
    (solve_problem o ⟨p, l, some s⟩).2 =
      [⟨get_model,
        [ContentPart.image img, ContentPart.text (image_instruction ++ solve_prompt_base l)],
        solveConfig⟩] ∧
    image_instruction <+: image_instruction ++ solve_prompt_base l ∧
    (∀ p2 : PyStr, solve_problem o ⟨p2, l, some s⟩ = solve_problem o ⟨p, l, some s⟩) := by
  have htruthy : optStrTruthy (some s) = true := by
    cases s with
    | nil => exact absurd rfl hs
    | cons c cs => rfl
  have hcont : ∀ q : PyStr, solve_contents o ⟨q, l, some s⟩ =
      .ok [ContentPart.image img,
           ContentPart.text (image_instruction ++ solve_prompt_base l)] := by
    intro q
    simp [solve_contents, htruthy, hdec, hopen]
  refine ⟨?_, List.prefix_append _ _, ?_⟩
  · simp [solve_problem, hcont p]
  · intro p2
    simp [solve_problem, hcont p, hcont p2]

/-- Witness for C6 at a concrete comma-free payload, with oracles whose
decoding and image parsing succeed. -/
theorem c6_image_prompt_witness :
    (solve_problem sampleOracles
        ⟨("2+2").toList, ("English").toList, some (("QUJD").toList)⟩).2 =
      [⟨get_model,
        [ContentPart.image ⟨(("QUJD").toList).map Char.toNat⟩,
         ContentPart.text (image_instruction ++ solve_prompt_base (("English").toList))],
        solveConfig⟩] ∧
    image_instruction <+: image_instruction ++ solve_prompt_base (("English").toList) ∧
    (∀ p2 : PyStr,
      solve_problem sampleOracles ⟨p2, ("English").toList, some (("QUJD").toList)⟩ =
        solve_problem sampleOracles
          ⟨("2+2").toList, ("English").toList, some (("QUJD").toList)⟩) :=
  c6_image_prompt sampleOracles (("2+2").toList) (("English").toList) (("QUJD").toList)
    ((("QUJD").toList).map Char.toNat) ⟨(("QUJD").toList).map Char.toNat⟩
    (by decide)
    (by rw [extract_base64_data_bare _ (by decide)]; rfl)
    rfl

/-- Claim C7: every call the solve handler makes to the generation service
uses temperature 0 with a 2500 output-token ceiling, and every call the
explain handler makes uses temperature 0.2 with an 800 output-token
ceiling. -/
theorem c7_generation_configs (o : Oracles) (sreq : SolveRequest) (ereq : ExplainRequest) :
    (∀ c ∈ (solve_problem o sreq).2, c.config = solveConfig) ∧
    (∀ c ∈ (explain_solution o ereq).2, c.config = explainConfig) ∧
    solveConfig = ⟨0, 2500⟩ ∧ explainConfig = ⟨0.2, 800⟩ := by
  refine ⟨?_, ?_, rfl, rfl⟩
  · cases h : solve_contents o sreq with
    | error e => simp [solve_problem, h]
    | ok contents =>
        intro c hc
        have hc2 : c = ⟨get_model, contents, solveConfig⟩ := by
          simpa [solve_problem, h] using hc
        rw [hc2]
  · intro c hc
    have hc2 : c = ⟨get_model, [ContentPart.text (explain_prompt ereq)], explainConfig⟩ := by
      simpa [explain_solution] using hc
    rw [hc2]

/-- Witness for C7 at concrete requests and oracles, on the one call each
handler makes. -/
theorem c7_generation_configs_witness :
    (⟨get_model, [ContentPart.text (solve_text_prompt (("2+2").toList) (("English").toList))],
        solveConfig⟩ : GenCall).config = solveConfig ∧
    explainCall0.config = explainConfig :=
  ⟨(c7_generation_configs sampleOracles sreq0 ereq0).1 _ (List.Mem.head _),
   (c7_generation_configs sampleOracles sreq0 ereq0).2.1 explainCall0 (List.Mem.head _)⟩

/-- Claim C8: no response mixes a result field with an error detail: on
success the solve response is exactly status 200 carrying only the
generated text as `solution` (for explain, only `explanation`), and on any
failure the response is status 500 carrying only `detail`. -/
theorem c8_no_partial_results (o : Oracles) (sreq : SolveRequest) (ereq : ExplainRequest) :
    ((∃ c t, o.generate_content c = .ok t ∧
        (solve_problem o sreq).1 = ⟨200, some t, none, none⟩) ∨
      (∃ d, (solve_problem o sreq).1 = ⟨500, none, none, some d⟩)) ∧
    ((∃ c t, o.generate_content c = .ok t ∧
        (explain_solution o ereq).1 = ⟨200, none, some t, none⟩) ∨
      (∃ d, (explain_solution o ereq).1 = ⟨500, none, none, some d⟩)) := by
  constructor
  · cases h : solve_contents o sreq with
    | error e =>
        obtain ⟨d, hd⟩ := handle_exception_shape e
        exact Or.inr ⟨d, by simp [solve_problem, h, hd]⟩
    | ok contents =>
        cases hg : o.generate_content ⟨get_model, contents, solveConfig⟩ with
        | ok t => exact Or.inl ⟨_, t, hg, by simp [solve_problem, h, hg]⟩
        | error msg =>
            obtain ⟨d, hd⟩ := handle_exception_shape (.genericExc msg)
            exact Or.inr ⟨d, by simp [solve_problem, h, hg, hd]⟩
  · cases hg : o.generate_content
        ⟨get_model, [ContentPart.text (explain_prompt ereq)], explainConfig⟩ with
    | ok t => exact Or.inl ⟨_, t, hg, by simp [explain_solution, hg]⟩
    | error msg =>
        obtain ⟨d, hd⟩ := handle_exception_shape (.genericExc msg)
        exact Or.inr ⟨d, by simp [explain_solution, hg, hd]⟩

set_option maxRecDepth 100000 in
/-- Claim C1, behaviour at the failing input: for the request with
`image_data` equal to `not-base64!!` and a decoder failing with the
CPython message, the `HTTPException(400, ...)` raised on line 86 is caught
by the blanket `except Exception` on line 100 and re-raised as
`HTTPException(500, str(e))`, so the handler answers HTTP 500, not 400;
its detail is the Starlette rendering of the 400 exception and still
contains `Invalid image data` followed by the decode failure reason. -/
theorem c1_invalid_image_yields_500 :
    (solve_problem failingDecodeOracles badImageRequest).1.status = 500 ∧
    ¬ (solve_problem failingDecodeOracles badImageRequest).1.status = 400 ∧
    (solve_problem failingDecodeOracles badImageRequest).1.detail =
      some (("400: Invalid image data: Invalid base64-encoded string: number of data characters (9) cannot be 1 more than a multiple of 4").toList) ∧
    ("Invalid image data").toList <:+:
      ((solve_problem failingDecodeOracles badImageRequest).1.detail).getD [] := by
  refine ⟨?_, ?_, ?_, ?_⟩ <;> decide
